import Mathlib

/-!
Shallow embedding of the daily-tracker domain layer
(`internal/domain/valueobjects/levels.go`, `internal/domain/entities/task_entry.go`,
`internal/domain/entities/sleep_entry.go`, `pkg/errors/domain_error.go`).

Modelling conventions:
* wall-clock times (`time.Time`) are whole minutes since an arbitrary epoch,
  all in one location (no DST); durations (`time.Duration`) are whole minutes;
* `float64` hour totals are modelled as rationals;
* Go's `(value, error)` returns become `Except GoError _` for constructors and
  `Entity × Option GoError` for in-place mutators (the returned entity is the
  post-call state; on an early error return the state is unchanged);
* `time.Now()` becomes an explicit `now` parameter.
-/

/-- Error taxonomy from `pkg/errors/domain_error.go`: `DomainError` (message +
code), `ValidationError` (field + message), `NotFoundError` (resource + id). -/
inductive GoError where
  | domainRule (message code : String)
  | fieldValidation (field message : String)
  | notFound (resource id : String)
deriving DecidableEq

/-- `errors.NewDomainError`: a `DomainError` with code `DOMAIN_ERROR`. -/
def NewDomainError (message : String) : GoError :=
  GoError.domainRule message "DOMAIN_ERROR"

/-- `errors.IsDomainError`. -/
def IsDomainError : GoError → Bool
  | GoError.domainRule _ _ => true
  | _ => false

/-- `errors.IsValidationError`. -/
def IsValidationError : GoError → Bool
  | GoError.fieldValidation _ _ => true
  | _ => false

instance {ε α : Type} [DecidableEq ε] [DecidableEq α] : DecidableEq (Except ε α) := fun x y =>
  match x, y with
  | Except.ok a, Except.ok b =>
    if h : a = b then isTrue (by rw [h]) else isFalse (fun he => h (Except.ok.inj he))
  | Except.ok _, Except.error _ => isFalse (fun he => Except.noConfusion he)
  | Except.error _, Except.ok _ => isFalse (fun he => Except.noConfusion he)
  | Except.error a, Except.error b =>
    if h : a = b then isTrue (by rw [h]) else isFalse (fun he => h (Except.error.inj he))

/-- Wall-clock time in whole minutes since an epoch (single location). -/
abbrev GoTime := Int

/-- `time.Duration` in whole minutes. -/
abbrev GoDuration := Int

def minutesPerDay : Int := 1440

/-- `time.Date(nextDay.Year(), nextDay.Month(), nextDay.Day(), 0,0,0,0, loc)`
where `nextDay = t.AddDate(0,0,1)`: midnight at the start of the calendar day
after the day containing `t`. -/
def startOfNextDay (t : GoTime) : GoTime :=
  ((t + minutesPerDay).fdiv minutesPerDay) * minutesPerDay

/-! ## Value objects (`levels.go`) -/

abbrev StressLevel := Int
abbrev EnergyLevel := Int
abbrev MoodLevel := Int
abbrev SleepQuality := Int
abbrev DaytimeSleepiness := Int

def StressLevelMin : Int := 0
def StressLevelMax : Int := 10

/-- `NewStressLevel`. -/
def NewStressLevel (level : Int) : Except GoError StressLevel :=
  if level < StressLevelMin ∨ level > StressLevelMax then
    Except.error (NewDomainError "stress level must be between 0 and 10")
  else Except.ok level

/-- `NewEnergyLevel`. -/
def NewEnergyLevel (level : Int) : Except GoError EnergyLevel :=
  if level < 0 ∨ level > 10 then
    Except.error (NewDomainError "energy level must be between 0 and 10")
  else Except.ok level

/-- `NewMoodLevel`. -/
def NewMoodLevel (level : Int) : Except GoError MoodLevel :=
  if level < 0 ∨ level > 10 then
    Except.error (NewDomainError "mood level must be between 0 and 10")
  else Except.ok level

/-- `NewSleepQuality`. -/
def NewSleepQuality (quality : Int) : Except GoError SleepQuality :=
  if quality < 0 ∨ quality > 10 then
    Except.error (NewDomainError "sleep quality must be between 0 and 10")
  else Except.ok quality

/-- `NewDaytimeSleepiness`. -/
def NewDaytimeSleepiness (sleepiness : Int) : Except GoError DaytimeSleepiness :=
  if sleepiness < 0 ∨ sleepiness > 10 then
    Except.error (NewDomainError "daytime sleepiness must be between 0 and 10")
  else Except.ok sleepiness

/-! ## Task category (`levels.go`) -/

abbrev TaskCategory := String

def TaskCategoryWork : TaskCategory := "работа"
def TaskCategoryStudy : TaskCategory := "учеба"
def TaskCategoryPersonal : TaskCategory := "личное"
def TaskCategoryHealth : TaskCategory := "здоровье"
def TaskCategoryHobbies : TaskCategory := "хобби"
def TaskCategoryOther : TaskCategory := "другое"

/-- `AllTaskCategories`: the six canonical tokens in source order. -/
def AllTaskCategories : List TaskCategory :=
  [TaskCategoryWork, TaskCategoryStudy, TaskCategoryPersonal,
   TaskCategoryHealth, TaskCategoryHobbies, TaskCategoryOther]

/-- `unicode`-aware lowercasing restricted to the ranges the category strings
can use: ASCII letters and the basic Cyrillic block (as Go's
`strings.ToLower` maps them). -/
def goCharToLower (c : Char) : Char :=
  if 65 ≤ c.toNat ∧ c.toNat ≤ 90 then Char.ofNat (c.toNat + 32)
  else if 0x410 ≤ c.toNat ∧ c.toNat ≤ 0x42F then Char.ofNat (c.toNat + 32)
  else if c.toNat = 0x401 then Char.ofNat 0x451
  else c

/-- `strings.ToLower`. -/
def goToLower (s : String) : String :=
  String.mk (s.data.map goCharToLower)

/-- `unicode.IsSpace` on the code points Go treats as white space
(Latin-1 part plus the Unicode space separators). -/
def goIsSpace (c : Char) : Bool :=
  c.toNat = 9 || c.toNat = 10 || c.toNat = 11 || c.toNat = 12 || c.toNat = 13 ||
  c.toNat = 32 || c.toNat = 0x85 || c.toNat = 0xA0 || c.toNat = 0x1680 ||
  (0x2000 ≤ c.toNat && c.toNat ≤ 0x200A) || c.toNat = 0x2028 ||
  c.toNat = 0x2029 || c.toNat = 0x202F || c.toNat = 0x205F || c.toNat = 0x3000

/-- `strings.TrimSpace`: drop leading and trailing white space. -/
def goTrimSpace (s : String) : String :=
  String.mk (((s.data.dropWhile goIsSpace).reverse.dropWhile goIsSpace).reverse)

/-- The normalization `NewTaskCategory` applies to its input:
`strings.ToLower(strings.TrimSpace(category))`. -/
def normalizeCategory (s : String) : String :=
  goToLower (goTrimSpace s)

/-- The `for ... range AllTaskCategories()` lookup loop inside
`NewTaskCategory`: first category whose lowercased form equals `n`. -/
def findCategory (n : String) : List TaskCategory → Option TaskCategory
  | [] => none
  | c :: rest => if goToLower c == n then some c else findCategory n rest

/-- `NewTaskCategory`. -/
def NewTaskCategory (category : String) : Except GoError TaskCategory :=
  let n := normalizeCategory category
  match findCategory n AllTaskCategories with
  | some c => Except.ok c
  | none => Except.error (NewDomainError ("invalid task category: " ++ n))

/-- `TaskCategory.IsValid`. -/
def categoryIsValid (tc : TaskCategory) : Bool :=
  AllTaskCategories.contains tc

/-! ## Domain events (`task_entry.go`, `sleep_entry.go`) -/

/-- The concrete `DomainEvent` implementations buffered by the two entities,
with their payload fields; `occurredOn` is the `time.Now()` captured at
creation. -/
inductive DomainEvent where
  | taskStarted (taskEntryID : String) (occurredOn : GoTime)
  | stressLevelChanged (taskEntryID : String)
      (stressBefore stressAfter : StressLevel) (occurredOn : GoTime)
  | sleepEntryCreated (sleepEntryID : String) (date : GoTime)
      (totalHours : ℚ) (quality : SleepQuality) (occurredOn : GoTime)
  | sleepLatencyChanged (sleepEntryID : String)
      (oldLatency newLatency : GoDuration) (occurredOn : GoTime)
  | nightAwakeningRecorded (sleepEntryID : String)
      (awakeningNumber : Int) (occurredOn : GoTime)
  | poorSleepQualityDetected (sleepEntryID : String) (reason : String)
      (awakenings : Int) (quality : Option SleepQuality) (occurredOn : GoTime)
  | daytimeSleepinessChanged (sleepEntryID : String)
      (oldSleepiness newSleepiness : DaytimeSleepiness) (occurredOn : GoTime)
  | sleepQualityUpdated (sleepEntryID : String)
      (oldQuality newQuality : SleepQuality) (occurredOn : GoTime)
deriving DecidableEq

/-! ## TaskEntry (`task_entry.go`) -/

/-- The `TaskEntry` entity; fields in source order, with `time.Time` as
minutes and `float64`-free. `startTime` is the nilable `*time.Time`. -/
structure TaskEntry where
  id : String
  date : GoTime
  dayNumber : Int
  keyTask : String
  category : TaskCategory
  stressBefore : StressLevel
  started : Bool
  startTime : Option GoTime
  activeDuration : GoDuration
  continuedAfter : Bool
  stressAfter : StressLevel
  distractions : GoDuration
  blocksCompleted : Int
  pomodoroCount : Int
  lightExposure : GoDuration
  energy : EnergyLevel
  mood : MoodLevel
  notes : String
  domainEvents : List DomainEvent
deriving DecidableEq

/-- `addDomainEvent` on `TaskEntry` (append to the buffer). -/
def addTaskDomainEvent (te : TaskEntry) (e : DomainEvent) : TaskEntry :=
  { te with domainEvents := te.domainEvents ++ [e] }

/-- `NewTaskEntry`: validates `keyTask` non-empty and `dayNumber ≥ 1`;
remaining fields take Go zero values. -/
def NewTaskEntry (id : String) (date : GoTime) (dayNumber : Int)
    (keyTask : String) (category : TaskCategory)
    (stressBefore : StressLevel) : Except GoError TaskEntry :=
  if keyTask = "" then
    Except.error (NewDomainError "key task cannot be empty")
  else if dayNumber < 1 then
    Except.error (NewDomainError "day number must be positive")
  else
    Except.ok
      { id := id, date := date, dayNumber := dayNumber, keyTask := keyTask,
        category := category, stressBefore := stressBefore, started := false,
        startTime := none, activeDuration := 0, continuedAfter := false,
        stressAfter := 0, distractions := 0, blocksCompleted := 0,
        pomodoroCount := 0, lightExposure := 0, energy := 0, mood := 0,
        notes := "", domainEvents := [] }

/-- `TaskEntry.StartTask`; `now` is the captured `time.Now()`. Returns the
post-call entity and the returned error (`none` on success). -/
def StartTask (te : TaskEntry) (now : GoTime) : TaskEntry × Option GoError :=
  if te.started then
    (te, some (NewDomainError "task already started"))
  else
    let te1 := { te with started := true, startTime := some now }
    (addTaskDomainEvent te1 (DomainEvent.taskStarted te.id now), none)

/-- `TaskEntry.UpdateDuration`. -/
def UpdateDuration (te : TaskEntry) (duration : GoDuration) :
    TaskEntry × Option GoError :=
  if te.started = false then
    (te, some (NewDomainError "cannot update duration: task not started"))
  else if duration < 0 then
    (te, some (NewDomainError "duration cannot be negative"))
  else
    ({ te with activeDuration := duration }, none)

/-- `TaskEntry.SetStressAfter` (unconditional, always appends an event). -/
def SetStressAfter (te : TaskEntry) (stressLevel : StressLevel)
    (now : GoTime) : TaskEntry :=
  let te1 := { te with stressAfter := stressLevel }
  addTaskDomainEvent te1
    (DomainEvent.stressLevelChanged te.id te.stressBefore stressLevel now)

/-- `TaskEntry.CalculateStressReduction`. -/
def CalculateStressReduction (te : TaskEntry) : Int :=
  te.stressBefore - te.stressAfter

/-! ## SleepEntry (`sleep_entry.go`) -/

/-- The `SleepEntry` entity; `totalSleepHours` (a `float64` in the source)
is a rational. -/
structure SleepEntry where
  id : String
  date : GoTime
  bedtime : GoTime
  wakeTime : GoTime
  sleepLatency : GoDuration
  nightAwakenings : Int
  totalSleepHours : ℚ
  sleepQuality : SleepQuality
  daytimeSleepiness : DaytimeSleepiness
  caffeineAfterNoon : Bool
  screenUseBeforeBed : GoDuration
  eveningFreeTime : GoDuration
  notes : String
  domainEvents : List DomainEvent
deriving DecidableEq

/-- `addDomainEvent` on `SleepEntry`. -/
def addSleepDomainEvent (se : SleepEntry) (e : DomainEvent) : SleepEntry :=
  { se with domainEvents := se.domainEvents ++ [e] }

/-- `SleepEntry.calculateTotalSleepHours`: wake − bedtime, +24h when
negative, minus latency, converted to hours (`Duration.Hours()`). -/
def calculateTotalSleepHours (se : SleepEntry) : SleepEntry :=
  let duration := se.wakeTime - se.bedtime
  let duration := if duration < 0 then duration + 24 * 60 else duration
  let actualSleepDuration := duration - se.sleepLatency
  { se with totalSleepHours := (actualSleepDuration : ℚ) / 60 }

/-- The success path of `NewSleepEntry`: build the record with Go zero
values, compute total sleep hours, append the creation event. -/
def buildSleepEntry (id : String) (date bedtime wakeTime : GoTime)
    (sleepQuality : SleepQuality) (now : GoTime) : SleepEntry :=
  let se0 : SleepEntry :=
    { id := id, date := date, bedtime := bedtime, wakeTime := wakeTime,
      sleepLatency := 0, nightAwakenings := 0, totalSleepHours := 0,
      sleepQuality := sleepQuality, daytimeSleepiness := 0,
      caffeineAfterNoon := false, screenUseBeforeBed := 0,
      eveningFreeTime := 0, notes := "", domainEvents := [] }
  let se1 := calculateTotalSleepHours se0
  addSleepDomainEvent se1
    (DomainEvent.sleepEntryCreated id date se1.totalSleepHours sleepQuality now)

/-- `NewSleepEntry`: rejects when `wakeTime.Before(bedtime)` and
`wakeTime.Before(midnight after bedtime's day)` (the two nested `if`s of
the source, combined into one conjunction). -/
def NewSleepEntry (id : String) (date bedtime wakeTime : GoTime)
    (sleepQuality : SleepQuality) (now : GoTime) : Except GoError SleepEntry :=
  if wakeTime < bedtime ∧ wakeTime < startOfNextDay bedtime then
    Except.error (NewDomainError "wake time cannot be before bedtime on the same day")
  else
    Except.ok (buildSleepEntry id date bedtime wakeTime sleepQuality now)

/-- `SleepEntry.SetSleepLatency`: rejects negative or >2h latency; on a
change appends `SleepLatencyChanged`; does NOT recompute total hours. -/
def SetSleepLatency (se : SleepEntry) (latency : GoDuration)
    (now : GoTime) : SleepEntry × Option GoError :=
  if latency < 0 then
    (se, some (NewDomainError "sleep latency cannot be negative"))
  else if latency > 2 * 60 then
    (se, some (NewDomainError "sleep latency seems too long (over 2 hours)"))
  else
    let oldLatency := se.sleepLatency
    let se1 := { se with sleepLatency := latency }
    if oldLatency ≠ latency then
      (addSleepDomainEvent se1
        (DomainEvent.sleepLatencyChanged se.id oldLatency latency now), none)
    else
      (se1, none)

/-- `SleepEntry.RecordNightAwakening`: increments the counter, appends
`NightAwakeningRecorded`, and when the counter reaches ≥ 3 additionally
appends `PoorSleepQualityDetected`. -/
def RecordNightAwakening (se : SleepEntry) (now : GoTime) : SleepEntry :=
  let se1 := { se with nightAwakenings := se.nightAwakenings + 1 }
  let se2 := addSleepDomainEvent se1
    (DomainEvent.nightAwakeningRecorded se.id se1.nightAwakenings now)
  if se2.nightAwakenings ≥ 3 then
    addSleepDomainEvent se2
      (DomainEvent.poorSleepQualityDetected se.id "multiple night awakenings"
        se2.nightAwakenings none now)
  else se2

/-- `SleepEntry.IsSleepHealthy`. -/
def IsSleepHealthy (se : SleepEntry) : Bool :=
  decide (7 ≤ se.totalSleepHours) && decide (se.totalSleepHours ≤ 9) &&
  decide (6 ≤ se.sleepQuality) && decide (se.nightAwakenings ≤ 1)

/-- Event counting helper for the event-buffer properties. -/
def countEvents (p : DomainEvent → Bool) (evts : List DomainEvent) : Nat :=
  (evts.filter p).length

def isTaskStartedEvent : DomainEvent → Bool
  | DomainEvent.taskStarted _ _ => true
  | _ => false

def isNightAwakeningEvent : DomainEvent → Bool
  | DomainEvent.nightAwakeningRecorded _ _ _ => true
  | _ => false

def isPoorSleepEvent : DomainEvent → Bool
  | DomainEvent.poorSleepQualityDetected _ _ _ _ _ => true
  | _ => false

/-! ## Concrete sample entities (used by the witnesses) -/

/-- The `TaskEntry` produced by
`NewTaskEntry "t1" 0 1 "отчет" TaskCategoryWork 8`. -/
def sampleTask : TaskEntry :=
  { id := "t1", date := 0, dayNumber := 1, keyTask := "отчет",
    category := TaskCategoryWork, stressBefore := 8, started := false,
    startTime := none, activeDuration := 0, continuedAfter := false,
    stressAfter := 0, distractions := 0, blocksCompleted := 0,
    pomodoroCount := 0, lightExposure := 0, energy := 0, mood := 0,
    notes := "", domainEvents := [] }

/-- `sampleTask` after a successful `StartTask` at minute 0. -/
def startedTask : TaskEntry := (StartTask sampleTask 0).1

/-- The `SleepEntry` produced by `NewSleepEntry` with bedtime 00:30
(minute 30) and wake 08:00 (minute 480) of the same calendar day. -/
def sampleSleep : SleepEntry := buildSleepEntry "s1" 0 30 480 6 0

/-! ## Theorems -/

theorem goError_domainRule_of_newDomainError (m : String) :
    IsDomainError (NewDomainError m) = true ∧
    IsValidationError (NewDomainError m) = false := by
  constructor <;> rfl

/-- Midnight at the start of the day after the day containing `t` is strictly
later than `t`: the day-rollover allowance inside `NewSleepEntry` can never
fire, because any `wakeTime` below `bedtime` is also below that midnight. -/
theorem lt_startOfNextDay (t : GoTime) : t < startOfNextDay t := by
  unfold startOfNextDay minutesPerDay
  rw [Int.fdiv_eq_ediv _ (by norm_num)]
  have he : (t + 1440) / 1440 = t / 1440 + 1 := by
    have h := Int.add_mul_ediv_right t 1 (show (1440 : Int) ≠ 0 by norm_num)
    simpa using h
  rw [he]
  exact Int.lt_ediv_add_one_mul_self t (by norm_num)

/-- C1: `NewSleepEntry` rejects every pair with `wakeTime` before `bedtime`,
including all pairs whose gap is explained by crossing midnight — the
rollover branch is unreachable, so the claimed allowance never happens. -/
theorem newSleepEntry_rejects_all_wake_before_bed (id : String)
    (date bedtime wakeTime : GoTime) (q : SleepQuality) (now : GoTime)
    (h : wakeTime < bedtime) :
    NewSleepEntry id date bedtime wakeTime q now =
      Except.error (NewDomainError "wake time cannot be before bedtime on the same day") := by
  unfold NewSleepEntry
  rw [if_pos ⟨h, lt_trans h (lt_startOfNextDay bedtime)⟩]

/-- C1 witness: bedtime 23:00 (minute 1380) and wake 07:00 (minute 420) of
the same calendar day — a gap explained by crossing midnight — is rejected. -/
theorem newSleepEntry_rejects_all_wake_before_bed_witness :
    NewSleepEntry "entry-1" 0 1380 420 6 0 =
      Except.error (NewDomainError "wake time cannot be before bedtime on the same day") :=
  newSleepEntry_rejects_all_wake_before_bed "entry-1" 0 1380 420 6 0 (by decide)

/-- C2: `SetSleepLatency` never changes the `totalSleepHours` field, whatever
latency it is given (accepted or rejected): the total computed at
construction is not recomputed. -/
theorem setSleepLatency_preserves_totalSleepHours (se : SleepEntry)
    (latency : GoDuration) (now : GoTime) :
    ((SetSleepLatency se latency now).1).totalSleepHours = se.totalSleepHours := by
  unfold SetSleepLatency
  split_ifs
  · rfl
  · rfl
  · by_cases hne : se.sleepLatency ≠ latency <;> simp [hne, addSleepDomainEvent]

/-- Inverting a successful `NewTaskEntry`: the returned entity is the record
with Go zero values for all fields the constructor does not set. -/
theorem newTaskEntry_ok_inv {id : String} {date : GoTime} {dayNumber : Int}
    {keyTask : String} {category : TaskCategory} {stressBefore : StressLevel}
    {te : TaskEntry}
    (h : NewTaskEntry id date dayNumber keyTask category stressBefore = Except.ok te) :
    te = { id := id, date := date, dayNumber := dayNumber, keyTask := keyTask,
           category := category, stressBefore := stressBefore, started := false,
           startTime := none, activeDuration := 0, continuedAfter := false,
           stressAfter := 0, distractions := 0, blocksCompleted := 0,
           pomodoroCount := 0, lightExposure := 0, energy := 0, mood := 0,
           notes := "", domainEvents := [] } := by
  unfold NewTaskEntry at h
  split_ifs at h
  exact (Except.ok.inj h).symm

/-- Inverting a successful `NewSleepEntry`. -/
theorem newSleepEntry_ok_inv {id : String} {date bedtime wakeTime : GoTime}
    {q : SleepQuality} {now : GoTime} {se : SleepEntry}
    (h : NewSleepEntry id date bedtime wakeTime q now = Except.ok se) :
    se = buildSleepEntry id date bedtime wakeTime q now := by
  unfold NewSleepEntry at h
  split_ifs at h
  exact (Except.ok.inj h).symm

/-- C4: whenever `StartTask`, `UpdateDuration` or `SetSleepLatency` returns an
error, the entity it was called on is returned entirely unchanged — every
field and the domain-event buffer. -/
theorem mutators_leave_state_unchanged_on_error (te : TaskEntry) (now : GoTime)
    (d : GoDuration) (se : SleepEntry) (lat : GoDuration) :
    ((StartTask te now).2.isSome = true → (StartTask te now).1 = te) ∧
    ((UpdateDuration te d).2.isSome = true → (UpdateDuration te d).1 = te) ∧
    ((SetSleepLatency se lat now).2.isSome = true → (SetSleepLatency se lat now).1 = se) := by
  refine ⟨?_, ?_, ?_⟩ <;> intro h
  · unfold StartTask at h ⊢
    split_ifs at h ⊢ with hs
    · rfl
    · simp at h
  · unfold UpdateDuration at h ⊢
    split_ifs at h ⊢ with h1 h2
    · rfl
    · rfl
    · simp at h
  · unfold SetSleepLatency at h ⊢
    split_ifs at h ⊢ with h1 h2
    · rfl
    · rfl
    · exfalso
      by_cases hne : se.sleepLatency ≠ lat <;> simp [hne] at h

/-- C4 witness: a second start, an update on an unstarted task, and a
negative latency all fail and leave their entity untouched. -/
theorem mutators_leave_state_unchanged_on_error_witness :
    (StartTask startedTask 5).1 = startedTask ∧
    (UpdateDuration sampleTask (-1)).1 = sampleTask ∧
    (SetSleepLatency sampleSleep (-1) 0).1 = sampleSleep := by
  refine ⟨?_, ?_, ?_⟩
  · exact (mutators_leave_state_unchanged_on_error startedTask 5 (-1) sampleSleep (-1)).1
      (by decide)
  · exact (mutators_leave_state_unchanged_on_error sampleTask 5 (-1) sampleSleep (-1)).2.1
      (by decide)
  · exact (mutators_leave_state_unchanged_on_error sampleTask 5 (-1) sampleSleep (-1)).2.2
      (by decide)

/-- C5: on a freshly constructed `TaskEntry` the first `StartTask` succeeds,
sets `started`, records the start timestamp, and appends exactly one
`TaskStarted` event (the fresh buffer is empty); any call on an
already-started entry returns the `DomainRule` error and appends nothing. -/
theorem startTask_first_succeeds_second_fails (id : String) (date : GoTime)
    (dayNumber : Int) (keyTask : String) (category : TaskCategory)
    (stressBefore : StressLevel) (te : TaskEntry) (now1 now2 : GoTime)
    (h : NewTaskEntry id date dayNumber keyTask category stressBefore = Except.ok te) :
    (StartTask te now1).2 = none ∧
    (StartTask te now1).1.started = true ∧
    (StartTask te now1).1.startTime = some now1 ∧
    (StartTask te now1).1.domainEvents = [DomainEvent.taskStarted id now1] ∧
    StartTask (StartTask te now1).1 now2 =
      ((StartTask te now1).1, some (NewDomainError "task already started")) ∧
    (∀ (te2 : TaskEntry) (now3 : GoTime), te2.started = true →
      StartTask te2 now3 = (te2, some (NewDomainError "task already started"))) := by
  have hte := newTaskEntry_ok_inv h
  subst hte
  refine ⟨?_, ?_, ?_, ?_, ?_, ?_⟩
  · simp [StartTask, addTaskDomainEvent]
  · simp [StartTask, addTaskDomainEvent]
  · simp [StartTask, addTaskDomainEvent]
  · simp [StartTask, addTaskDomainEvent]
  · simp [StartTask, addTaskDomainEvent]
  · intro te2 now3 h2
    simp [StartTask, h2]

/-- C5 witness: the concrete fresh task starts once and only once. -/
theorem startTask_first_succeeds_second_fails_witness :
    (StartTask sampleTask 5).2 = none ∧
    (StartTask sampleTask 5).1.started = true ∧
    StartTask (StartTask sampleTask 5).1 6 =
      ((StartTask sampleTask 5).1, some (NewDomainError "task already started")) := by
  have h := startTask_first_succeeds_second_fails "t1" 0 1 "отчет" TaskCategoryWork 8
    sampleTask 5 6 (by decide)
  exact ⟨h.1, h.2.1, h.2.2.2.2.1⟩

/-- C10: on a freshly constructed `TaskEntry` the stress-after level is the
Go zero value 0 and `CalculateStressReduction` equals the raw stress-before
value supplied at construction. -/
theorem newTaskEntry_initial_stress_reduction (id : String) (date : GoTime)
    (dayNumber : Int) (keyTask : String) (category : TaskCategory)
    (stressBefore : StressLevel) (te : TaskEntry)
    (h : NewTaskEntry id date dayNumber keyTask category stressBefore = Except.ok te) :
    te.stressAfter = 0 ∧ CalculateStressReduction te = stressBefore := by
  have hte := newTaskEntry_ok_inv h
  subst hte
  exact ⟨rfl, by simp [CalculateStressReduction]⟩

/-- C10 witness: the sample fresh task has stress-after 0 and reduction 8. -/
theorem newTaskEntry_initial_stress_reduction_witness :
    sampleTask.stressAfter = 0 ∧ CalculateStressReduction sampleTask = 8 :=
  newTaskEntry_initial_stress_reduction "t1" 0 1 "отчет" TaskCategoryWork 8
    sampleTask (by decide)

/-- C7: three `RecordNightAwakening` calls on a freshly constructed
`SleepEntry` append exactly 3 `NightAwakeningRecorded` events and exactly 1
`PoorSleepQualityDetected` event; after only two calls no
`PoorSleepQualityDetected` event is present, so the third call is the one
that appends it. -/
theorem recordNightAwakening_three_times (id : String)
    (date bedtime wakeTime : GoTime) (q : SleepQuality)
    (now n1 n2 n3 : GoTime) (se : SleepEntry)
    (h : NewSleepEntry id date bedtime wakeTime q now = Except.ok se) :
    countEvents isNightAwakeningEvent
      (RecordNightAwakening (RecordNightAwakening (RecordNightAwakening se n1) n2) n3).domainEvents = 3 ∧
    countEvents isPoorSleepEvent
      (RecordNightAwakening (RecordNightAwakening (RecordNightAwakening se n1) n2) n3).domainEvents = 1 ∧
    countEvents isPoorSleepEvent
      (RecordNightAwakening (RecordNightAwakening se n1) n2).domainEvents = 0 ∧
    countEvents isNightAwakeningEvent se.domainEvents = 0 ∧
    countEvents isPoorSleepEvent se.domainEvents = 0 := by
  have hse := newSleepEntry_ok_inv h
  subst hse
  refine ⟨?_, ?_, ?_, ?_, ?_⟩ <;>
    simp [RecordNightAwakening, addSleepDomainEvent, buildSleepEntry,
      calculateTotalSleepHours, countEvents, isNightAwakeningEvent,
      isPoorSleepEvent, List.filter]

/-- C7 witness: the concrete sample sleep entry shows the 3 + 1 event
pattern. -/
theorem recordNightAwakening_three_times_witness :
    countEvents isNightAwakeningEvent
      (RecordNightAwakening (RecordNightAwakening (RecordNightAwakening sampleSleep 1) 2) 3).domainEvents = 3 ∧
    countEvents isPoorSleepEvent
      (RecordNightAwakening (RecordNightAwakening (RecordNightAwakening sampleSleep 1) 2) 3).domainEvents = 1 := by
  have h := recordNightAwakening_three_times "s1" 0 30 480 6 0 1 2 3 sampleSleep rfl
  exact ⟨h.1, h.2.1⟩

/-- C8: `IsSleepHealthy` is true exactly when total hours lie in [7, 9],
quality is at least 6 and night awakenings are at most 1. -/
theorem isSleepHealthy_iff (se : SleepEntry) :
    IsSleepHealthy se = true ↔
      (7 ≤ se.totalSleepHours ∧ se.totalSleepHours ≤ 9 ∧
        6 ≤ se.sleepQuality ∧ se.nightAwakenings ≤ 1) := by
  simp [IsSleepHealthy, and_assoc]

/-- C9: a freshly constructed `SleepEntry` has zero latency and
`totalSleepHours` equal to (wake − bedtime, +24h when negative) minus the
(zero) latency, in hours. -/
theorem newSleepEntry_totalSleepHours (id : String)
    (date bedtime wakeTime : GoTime) (q : SleepQuality) (now : GoTime)
    (se : SleepEntry)
    (h : NewSleepEntry id date bedtime wakeTime q now = Except.ok se) :
    se.sleepLatency = 0 ∧
    se.totalSleepHours =
      (((if wakeTime - bedtime < 0 then wakeTime - bedtime + 24 * 60
         else wakeTime - bedtime) : Int) : ℚ) / 60 := by
  have hse := newSleepEntry_ok_inv h
  subst hse
  constructor
  · rfl
  · simp [buildSleepEntry, calculateTotalSleepHours, addSleepDomainEvent]

/-- C9 witness: bedtime 00:30, wake 08:00, zero latency gives 7.5 hours. -/
theorem newSleepEntry_totalSleepHours_witness :
    sampleSleep.sleepLatency = 0 ∧ sampleSleep.totalSleepHours = 15 / 2 := by
  have h := newSleepEntry_totalSleepHours "s1" 0 30 480 6 0 sampleSleep rfl
  refine ⟨h.1, ?_⟩
  rw [h.2]
  norm_num

/-- C6 counterexample: an out-of-range stress level fails with a
`DomainError` (code `DOMAIN_ERROR`), which is not a `ValidationError` — so
the failure is a DomainRule error, not a FieldValidation error. -/
theorem newStressLevel_error_is_domainRule :
    NewStressLevel 11 =
      Except.error (GoError.domainRule "stress level must be between 0 and 10" "DOMAIN_ERROR") ∧
    IsValidationError (GoError.domainRule "stress level must be between 0 and 10" "DOMAIN_ERROR") = false ∧
    IsDomainError (GoError.domainRule "stress level must be between 0 and 10" "DOMAIN_ERROR") = true := by
  refine ⟨rfl, rfl, rfl⟩

/-- C6 amended: every bounded scale constructor (stress, energy, mood,
sleep quality, daytime sleepiness) succeeds with the raw value iff
`0 ≤ n ≤ 10`, and outside that range fails with its `DomainRule`
(`DOMAIN_ERROR`) error. -/
theorem boundedScale_succeeds_iff_in_range (n : Int) :
    ((0 ≤ n ∧ n ≤ 10) →
      (NewStressLevel n = Except.ok n ∧ NewEnergyLevel n = Except.ok n ∧
       NewMoodLevel n = Except.ok n ∧ NewSleepQuality n = Except.ok n ∧
       NewDaytimeSleepiness n = Except.ok n)) ∧
    (¬(0 ≤ n ∧ n ≤ 10) →
      (NewStressLevel n = Except.error (NewDomainError "stress level must be between 0 and 10") ∧
       NewEnergyLevel n = Except.error (NewDomainError "energy level must be between 0 and 10") ∧
       NewMoodLevel n = Except.error (NewDomainError "mood level must be between 0 and 10") ∧
       NewSleepQuality n = Except.error (NewDomainError "sleep quality must be between 0 and 10") ∧
       NewDaytimeSleepiness n = Except.error (NewDomainError "daytime sleepiness must be between 0 and 10"))) := by
  constructor
  · intro h
    have hc : ¬(n < 0 ∨ n > 10) := by omega
    refine ⟨?_, ?_, ?_, ?_, ?_⟩ <;>
      simp [NewStressLevel, NewEnergyLevel, NewMoodLevel, NewSleepQuality,
        NewDaytimeSleepiness, StressLevelMin, StressLevelMax, hc]
  · intro h
    have hc : n < 0 ∨ n > 10 := by omega
    refine ⟨?_, ?_, ?_, ?_, ?_⟩ <;>
      simp [NewStressLevel, NewEnergyLevel, NewMoodLevel, NewSleepQuality,
        NewDaytimeSleepiness, StressLevelMin, StressLevelMax, hc]

/-- C6 witness: 5 is accepted by every scale, −1 is rejected by every
scale with the DomainRule error. -/
theorem boundedScale_succeeds_iff_in_range_witness :
    NewMoodLevel 5 = Except.ok 5 ∧
    NewEnergyLevel (-1) = Except.error (NewDomainError "energy level must be between 0 and 10") := by
  have h1 := (boundedScale_succeeds_iff_in_range 5).1 (by decide)
  have h2 := (boundedScale_succeeds_iff_in_range (-1)).2 (by decide)
  exact ⟨h1.2.2.1, h2.2.1⟩

/-- Each canonical category token is already lower-case: `strings.ToLower`
leaves it unchanged. -/
theorem goToLower_fixes_canonical :
    goToLower TaskCategoryWork = TaskCategoryWork ∧
    goToLower TaskCategoryStudy = TaskCategoryStudy ∧
    goToLower TaskCategoryPersonal = TaskCategoryPersonal ∧
    goToLower TaskCategoryHealth = TaskCategoryHealth ∧
    goToLower TaskCategoryHobbies = TaskCategoryHobbies ∧
    goToLower TaskCategoryOther = TaskCategoryOther := by
  refine ⟨rfl, rfl, rfl, rfl, rfl, rfl⟩

/-- The lookup loop finds a normalized input that is one of the canonical
tokens, and finds nothing otherwise. -/
theorem findCategory_spec (n : String) :
    (n ∈ AllTaskCategories → findCategory n AllTaskCategories = some n) ∧
    (n ∉ AllTaskCategories → findCategory n AllTaskCategories = none) := by
  obtain ⟨e1, e2, e3, e4, e5, e6⟩ := goToLower_fixes_canonical
  constructor
  · intro h
    simp only [AllTaskCategories, List.mem_cons, List.not_mem_nil, or_false] at h
    rcases h with h | h | h | h | h | h <;> subst h <;> rfl
  · intro h
    simp only [AllTaskCategories, List.mem_cons, List.not_mem_nil, or_false,
      not_or] at h
    obtain ⟨h1, h2, h3, h4, h5, h6⟩ := h
    simp [AllTaskCategories, findCategory, e1, e2, e3, e4, e5, e6,
      beq_iff_eq, Ne.symm h1, Ne.symm h2, Ne.symm h3, Ne.symm h4,
      Ne.symm h5, Ne.symm h6]

/-- C3 counterexample: the English word `work` is NOT one of the code's
canonical tokens — `NewTaskCategory` rejects it. -/
theorem newTaskCategory_rejects_english_work :
    NewTaskCategory "work" =
      Except.error (NewDomainError "invalid task category: work") := by rfl

/-- C3 amended: the six canonical tokens are the values of
`TaskCategoryWork … TaskCategoryOther` (the Cyrillic strings
работа/учеба/личное/здоровье/хобби/другое). For every input whose
trimmed, case-folded form equals one of them `NewTaskCategory` returns that
canonical token; every other input yields an error. -/
theorem newTaskCategory_canonical_iff (s : String) :
    (normalizeCategory s ∈ AllTaskCategories →
      NewTaskCategory s = Except.ok (normalizeCategory s)) ∧
    (normalizeCategory s ∉ AllTaskCategories →
      NewTaskCategory s =
        Except.error (NewDomainError ("invalid task category: " ++ normalizeCategory s))) := by
  constructor
  · intro h
    have hf := (findCategory_spec (normalizeCategory s)).1 h
    simp [NewTaskCategory, hf]
  · intro h
    have hf := (findCategory_spec (normalizeCategory s)).2 h
    simp [NewTaskCategory, hf]

/-- C3 witness: an upper-case Cyrillic input with surrounding whitespace
normalizes to the canonical token `работа` and is accepted; the canonical
token itself round-trips. -/
theorem newTaskCategory_canonical_iff_witness :
    NewTaskCategory "  РАБОТА " = Except.ok TaskCategoryWork := by
  have h := (newTaskCategory_canonical_iff "  РАБОТА ").1 (by decide)
  have e : normalizeCategory "  РАБОТА " = TaskCategoryWork := by decide
  rw [e] at h
  exact h
